import Mathlib

/-!
Verification of the mailchimp-mcp-server tool gateway.

Sources embedded:
- src/services/mailchimp-client.ts : the remote client used by src/index.ts
- src/index.ts : the persistent-process entry point, namespace Index
- api/mcp.ts : the request-scoped serverless entry point, namespace Api

JavaScript JSON values are modelled by JValue; a JS object field holding
undefined is modelled as none at the field position (type JsObject),
matching the fact that JSON.stringify drops such members while keeping
explicit nulls. JS numbers are modelled as rationals.
-/

inductive JValue : Type where
  | jnull : JValue
  | jbool : Bool → JValue
  | jnum : ℚ → JValue
  | jstr : String → JValue
  | jarr : List JValue → JValue
  | jobj : List (String × JValue) → JValue

open JValue

/-- JS truthiness of a JSON value, as in Boolean(v); arrays and objects are truthy. -/
def jsTruthy : JValue → Bool
  | jnull => false
  | jbool b => b
  | jnum q => decide (q ≠ 0)
  | jstr s => decide (s ≠ "")
  | jarr _ => true
  | jobj _ => true

/-- First binding of a key in a JS object field list. -/
def lookupField (k : String) : List (String × JValue) → Option JValue
  | [] => none
  | (k', v) :: fs => if k' = k then some v else lookupField k fs

/-- JS property access v.k: a field of an object, undefined (none) otherwise. -/
def jget (v : JValue) (k : String) : Option JValue :=
  match v with
  | jobj fs => lookupField k fs
  | _ => none

/-- JS optional-chained access v.k1?.k2: undefined when v.k1 is nullish or
not an object, otherwise the k2 field of that object. -/
def jchain (v : JValue) (k1 k2 : String) : Option JValue :=
  match jget v k1 with
  | some (jobj fs) => lookupField k2 fs
  | _ => none

/-- JS a || b where a may be undefined (none). -/
def jsOr (a : Option JValue) (b : JValue) : JValue :=
  match a with
  | some v => if jsTruthy v then v else b
  | none => b

/-- JS template-string rendering of a value, as used in the error messages.
Only string details are exercised by the gateway; other cases are rendered
by their usual JS conversions (arrays abstracted). -/
def jsDisplay : JValue → String
  | jnull => "null"
  | jbool b => toString b
  | jnum q => toString q
  | jstr s => s
  | jarr _ => ""
  | jobj _ => "[object Object]"

/-- A JS object literal whose fields may hold undefined (none). -/
abbrev JsObject := List (String × Option JValue)

/-- JSON.stringify member selection: fields holding undefined are dropped,
explicit nulls are kept. -/
def stringifyFields (fs : JsObject) : List (String × JValue) :=
  fs.filterMap fun kv => kv.2.map fun v => (kv.1, v)

/-- JS s || d for a possibly-undefined string: the empty string is falsy. -/
def jsOrString (a : Option String) (d : String) : String :=
  match a with
  | some s => if s = "" then d else s
  | none => d

/-- JS x || null for a possibly-undefined string, as a JSON value. -/
def jsStrOrNull : Option String → JValue
  | some s => if s = "" then jnull else jstr s
  | none => jnull

/-- JS x || null for a possibly-undefined number, as a JSON value: a present
zero is falsy and becomes null. -/
def jsNumOrNull : Option ℚ → JValue
  | some q => if q = 0 then jnull else jnum q
  | none => jnull

/-- JavaScript s.split(sep) for a one-character separator, on character lists.
The result is never empty and joins back to the input with sep between parts. -/
def splitChars (sep : Char) : List Char → List (List Char)
  | [] => [[]]
  | c :: cs =>
    match splitChars sep cs with
    | [] => [[]]
    | h :: t => if c = sep then [] :: h :: t else (c :: h) :: t

theorem splitChars_ne_nil (sep : Char) (l : List Char) : splitChars sep l ≠ [] := by
  cases l with
  | nil => simp [splitChars]
  | cons c cs =>
    simp only [splitChars]
    cases h : splitChars sep cs with
    | nil => simp
    | cons a b =>
      by_cases hc : c = sep <;> simp [hc]

theorem splitChars_append (sep : Char) (xs ys : List Char) :
    splitChars sep (xs ++ sep :: ys) = splitChars sep xs ++ splitChars sep ys := by
  induction xs with
  | nil =>
    simp only [List.nil_append, splitChars]
    cases h : splitChars sep ys with
    | nil => exact absurd h (splitChars_ne_nil sep ys)
    | cons a b => simp
  | cons c cs ih =>
    simp only [List.cons_append, splitChars]
    cases h : splitChars sep cs with
    | nil => exact absurd h (splitChars_ne_nil sep cs)
    | cons a b =>
      by_cases hc : c = sep <;> simp [hc, ih, h]

theorem splitChars_of_not_mem (sep : Char) (ys : List Char) (h : sep ∉ ys) :
    splitChars sep ys = [ys] := by
  induction ys with
  | nil => rfl
  | cons c cs ih =>
    simp only [List.mem_cons, not_or] at h
    have hc : ¬ c = sep := fun hh => h.1 hh.symm
    simp [splitChars, ih h.2, hc]

theorem getLastD_append_singleton {α : Type} (l : List α) (a d : α) :
    (l ++ [a]).getLastD d = a := by
  induction l generalizing d with
  | nil => rfl
  | cons x xs ih =>
    rw [List.cons_append, List.getLastD_cons]
    exact ih x

/-- JS x.toFixed(1) for the nonnegative rate values the gateway formats:
round to the nearest tenth, render one digit after the point. -/
def toFixed1 (x : ℚ) : String :=
  let n : ℤ := (x * 10 + 1 / 2).floor
  toString (n / 10) ++ "." ++ toString (n % 10)

/-- Options record of the remote request, as in MailchimpRequestOptions. -/
structure RequestOptions where
  method : String
  path : String
  body : Option JValue := none
  params : List (String × String) := []

/-- The outgoing HTTP request handed to fetch. URL-encoding of the query is a
transport detail left abstract: the query pairs are carried as given. -/
structure HttpRequest where
  url : String
  method : String
  headers : List (String × String)
  query : List (String × String)
  body : Option JValue

/-- URLSearchParams.set semantics: replace the value of an existing key,
otherwise append (the catalog never emits duplicate keys). -/
def setParam : List (String × String) → String → String → List (String × String)
  | [], k, v => [(k, v)]
  | (k', v') :: rest, k, v =>
    if k' = k then (k, v) :: rest else (k', v') :: setParam rest k v

-- Remote-owned entities, following the interfaces declared in src/index.ts.
-- The inline response types in api/mcp.ts are structural subsets of these
-- shapes and are shared here so the two entry points can be compared.

structure ListStats where
  member_count : ℚ
  unsubscribe_count : ℚ
  open_rate : ℚ
  click_rate : ℚ

structure MailchimpList where
  id : String
  name : String
  stats : ListStats

structure CampaignSettings where
  subject_line : Option String := none
  preview_text : Option String := none
  title : Option String := none
  from_name : Option String := none
  reply_to : Option String := none

structure ReportSummary where
  opens : ℚ
  unique_opens : ℚ
  open_rate : ℚ
  clicks : ℚ
  subscriber_clicks : ℚ
  click_rate : ℚ

/-- Campaign entity; the optional recipients sub-object is flattened into its
two optional fields. -/
structure MailchimpCampaign where
  id : String
  web_id : ℚ
  type : String
  status : String
  create_time : String
  send_time : Option String := none
  emails_sent : Option ℚ := none
  settings : CampaignSettings
  recipients_list_id : Option String := none
  recipients_list_name : Option String := none
  report_summary : Option ReportSummary := none

namespace Index

/-- DATA_CENTER from mailchimp-client.ts: API_KEY.split("-").pop() with the
us1 fallback when the popped segment is falsy (empty). -/
def DATA_CENTER (apiKey : String) : String :=
  let last := (splitChars '-' apiKey.data).getLastD []
  if last = [] then "us1" else String.mk last

/-- BASE_URL from mailchimp-client.ts. -/
def BASE_URL (apiKey : String) : String :=
  "https://" ++ DATA_CENTER apiKey ++ ".api.mailchimp.com/3.0"

/-- The request built by mailchimpRequest before fetch: base URL plus path,
query parameters set one by one, bearer authorization and JSON content type. -/
def buildFetch (apiKey : String) (o : RequestOptions) : HttpRequest :=
  { url := BASE_URL apiKey ++ o.path
    method := o.method
    headers := [("Authorization", "Bearer " ++ apiKey),
                ("Content-Type", "application/json")]
    query := o.params.foldl (fun q kv => setParam q kv.1 kv.2) []
    body := o.body }

/-- The error detail extracted by mailchimpRequest:
data.detail || data.title || "Unknown error", rendered into the message. -/
def errorDetail (data : JValue) : String :=
  jsDisplay (jsOr (jget data "detail") (jsOr (jget data "title") (jstr "Unknown error")))

/-- mailchimpRequest from mailchimp-client.ts. The network is abstracted as
respond, mapping the built request to a status code and parsed JSON body; the
guard on the missing key fires before respond is consulted, status 204 yields
the empty object before the body is read, and a non-ok status raises the
normalized message. -/
def mailchimpRequest (apiKey : String) (o : RequestOptions)
    (respond : HttpRequest → Nat × JValue) : Except String JValue :=
  if apiKey = "" then
    .error "MAILCHIMP_API_KEY environment variable is not set. Format: <key>-<dc> (e.g., abc123-us14)"
  else
    let r := respond (buildFetch apiKey o)
    if r.1 = 204 then .ok (jobj [])
    else if 200 ≤ r.1 ∧ r.1 ≤ 299 then .ok r.2
    else .error ("Mailchimp API error (" ++ toString r.1 ++ "): " ++ errorDetail r.2)

/-- Request of mailchimp_list_audiences in src/index.ts. -/
def listAudiencesRequest : RequestOptions :=
  { method := "GET", path := "/lists",
    params := [("count", "100"), ("fields", "lists.id,lists.name,lists.stats")] }

/-- Summary row of mailchimp_list_audiences in src/index.ts. -/
def audienceSummary (l : MailchimpList) : JsObject :=
  [ ("id", some (jstr l.id)),
    ("name", some (jstr l.name)),
    ("subscribers", some (jnum l.stats.member_count)),
    ("open_rate", some (jstr (toFixed1 (l.stats.open_rate * 100) ++ "%"))),
    ("click_rate", some (jstr (toFixed1 (l.stats.click_rate * 100) ++ "%"))) ]

/-- Request of mailchimp_list_campaigns in src/index.ts: fixed count and sort
parameters, then the status filter appended when truthy. -/
def listCampaignsRequest (status : Option String) (count : ℤ) : RequestOptions :=
  { method := "GET", path := "/campaigns",
    params := [("count", toString count), ("sort_field", "create_time"),
               ("sort_dir", "DESC")]
      ++ (match status with
          | some s => if s = "" then [] else [("status", s)]
          | none => []) }

/-- Summary row of mailchimp_list_campaigns in src/index.ts. -/
def campaignSummary (c : MailchimpCampaign) : JsObject :=
  [ ("id", some (jstr c.id)),
    ("title", some (jstr (jsOrString c.settings.title "(untitled)"))),
    ("subject", some (jstr (jsOrString c.settings.subject_line "(no subject)"))),
    ("status", some (jstr c.status)),
    ("created", some (jstr c.create_time)),
    ("sent", some (jsStrOrNull c.send_time)),
    ("emails_sent", some (jsNumOrNull c.emails_sent)),
    ("opens", some (jsNumOrNull (c.report_summary.map ReportSummary.unique_opens))),
    ("clicks", some (jsNumOrNull (c.report_summary.map ReportSummary.subscriber_clicks))) ]

/-- Body of mailchimp_create_campaign in src/index.ts. -/
def createCampaignBody (list_id subject : String) (preview_text title : Option String)
    (from_name reply_to : String) : JValue :=
  jobj [ ("type", jstr "regular"),
         ("recipients", jobj [("list_id", jstr list_id)]),
         ("settings", jobj [ ("subject_line", jstr subject),
                             ("preview_text", jstr (jsOrString preview_text "")),
                             ("title", jstr (jsOrString title subject)),
                             ("from_name", jstr from_name),
                             ("reply_to", jstr reply_to) ]) ]

/-- Request of mailchimp_create_campaign in src/index.ts. -/
def createCampaignRequest (list_id subject : String) (preview_text title : Option String)
    (from_name reply_to : String) : RequestOptions :=
  { method := "POST", path := "/campaigns",
    body := some (createCampaignBody list_id subject preview_text title from_name reply_to) }

/-- Request of mailchimp_set_campaign_content in src/index.ts. -/
def setContentRequest (campaign_id html : String) : RequestOptions :=
  { method := "PUT", path := "/campaigns/" ++ campaign_id ++ "/content",
    body := some (jobj [("html", jstr html)]) }

/-- Request of mailchimp_send_test in src/index.ts. -/
def sendTestRequest (campaign_id : String) (test_emails : List String)
    (send_type : String) : RequestOptions :=
  { method := "POST", path := "/campaigns/" ++ campaign_id ++ "/actions/test",
    body := some (jobj [("test_emails", jarr (test_emails.map jstr)),
                        ("send_type", jstr send_type)]) }

/-- Request of mailchimp_send_campaign in src/index.ts. -/
def sendCampaignRequest (campaign_id : String) : RequestOptions :=
  { method := "POST", path := "/campaigns/" ++ campaign_id ++ "/actions/send" }

/-- Request of mailchimp_schedule_campaign in src/index.ts. -/
def scheduleCampaignRequest (campaign_id schedule_time : String) : RequestOptions :=
  { method := "POST", path := "/campaigns/" ++ campaign_id ++ "/actions/schedule",
    body := some (jobj [("schedule_time", jstr schedule_time)]) }

/-- Request of mailchimp_get_campaign_report in src/index.ts. -/
def getReportRequest (campaign_id : String) : RequestOptions :=
  { method := "GET", path := "/reports/" ++ campaign_id }

/-- Request of mailchimp_delete_campaign in src/index.ts. -/
def deleteCampaignRequest (campaign_id : String) : RequestOptions :=
  { method := "DELETE", path := "/campaigns/" ++ campaign_id }

/-- Summary of mailchimp_get_campaign_report in src/index.ts, over the raw
parsed report; optional chaining on missing sub-objects yields undefined. -/
def getCampaignReportSummary (campaign_id : String) (report : JValue) : JsObject :=
  [ ("campaign_id", some (jstr campaign_id)),
    ("subject", jget report "subject_line"),
    ("emails_sent", jget report "emails_sent"),
    ("opens", jchain report "opens" "unique_opens"),
    ("open_rate", jchain report "opens" "open_rate"),
    ("clicks", jchain report "clicks" "unique_subscriber_clicks"),
    ("click_rate", jchain report "clicks" "click_rate"),
    ("bounces", jget report "bounces"),
    ("unsubscribes", jget report "unsubscribed") ]

end Index

namespace Index

/-- The count schema of mailchimp_list_campaigns:
z.number().int().min(1).max(100).default(20). -/
def validateCount : Option ℚ → Except String ℤ
  | none => .ok 20
  | some q =>
    if q.den ≠ 1 then .error "count: expected an integer"
    else if q < 1 then .error "count: must be at least 1"
    else if 100 < q then .error "count: must be at most 100"
    else .ok q.num

/-- The status schema of mailchimp_list_campaigns: an optional enumeration. -/
def validateStatus : Option String → Except String (Option String)
  | none => .ok none
  | some s =>
    if s = "save" ∨ s = "sent" ∨ s = "schedule" ∨ s = "sending" ∨ s = "paused"
    then .ok (some s) else .error "status: invalid enum value"

/-- Cardinality bounds of the mailchimp_send_test recipients schema:
z.array(z.string().email()).min(1).max(5). The per-element email format check
belongs to the validation library and is not modelled; the bound under study
concerns only the number of entries. -/
def validateTestEmails (emails : List String) : Except String (List String) :=
  if emails.length < 1 then .error "test_emails: at least 1 address required"
  else if 5 < emails.length then .error "test_emails: at most 5 addresses allowed"
  else .ok emails

/-- The send_type schema of mailchimp_send_test:
z.enum(["html", "plaintext"]).default("html"). -/
def validateSendType : Option String → Except String String
  | none => .ok "html"
  | some s => if s = "html" ∨ s = "plaintext" then .ok s else .error "send_type: invalid enum value"

/-- The full mailchimp_list_campaigns invocation: schema validation, then the
one remote call; a validation failure returns before any request is built and
before the network is consulted. -/
def listCampaignsInvoke (apiKey : String) (status : Option String) (count : Option ℚ)
    (respond : HttpRequest → Nat × JValue) : Except String JValue :=
  match validateStatus status with
  | .error e => .error e
  | .ok st =>
    match validateCount count with
    | .error e => .error e
    | .ok c => mailchimpRequest apiKey (listCampaignsRequest st c) respond

/-- The full mailchimp_send_test invocation: schema validation, then the one
remote call. -/
def sendTestInvoke (apiKey : String) (campaign_id : String) (test_emails : List String)
    (send_type : Option String) (respond : HttpRequest → Nat × JValue) :
    Except String JValue :=
  match validateTestEmails test_emails with
  | .error e => .error e
  | .ok emails =>
    match validateSendType send_type with
    | .error e => .error e
    | .ok ty => mailchimpRequest apiKey (sendTestRequest campaign_id emails ty) respond

end Index

namespace Api

/-- getApiConfig from api/mcp.ts: the key and the base URL derived from
apiKey.split("-").pop() with the us1 fallback when the popped segment is
falsy (empty). -/
def getApiConfig (apiKey : String) : String × String :=
  let dc := (splitChars '-' apiKey.data).getLastD []
  (apiKey, "https://" ++ (if dc = [] then "us1" else String.mk dc) ++ ".api.mailchimp.com/3.0")

/-- The error detail extracted by mc: data.detail || data.title || "Error". -/
def errorDetail (data : JValue) : String :=
  jsDisplay (jsOr (jget data "detail") (jsOr (jget data "title") (jstr "Error")))

/-- mc from api/mcp.ts, with the network abstracted as respond. The missing-key
guard fires before respond is consulted, status 204 yields the empty object,
and a non-ok status raises the normalized message. -/
def mc (apiKey method path : String) (body : Option JValue)
    (params : List (String × String)) (respond : HttpRequest → Nat × JValue) :
    Except String JValue :=
  let cfg := getApiConfig apiKey
  if cfg.1 = "" then .error "MAILCHIMP_API_KEY not set. Format: <key>-<dc>"
  else
    let r := respond
      { url := cfg.2 ++ path
        method := method
        headers := [("Authorization", "Bearer " ++ cfg.1),
                    ("Content-Type", "application/json")]
        query := params.foldl (fun q kv => setParam q kv.1 kv.2) []
        body := body }
    if r.1 = 204 then .ok (jobj [])
    else if 200 ≤ r.1 ∧ r.1 ≤ 299 then .ok r.2
    else .error ("Mailchimp " ++ toString r.1 ++ ": " ++ errorDetail r.2)

/-- Request of mailchimp_list_audiences in api/mcp.ts. -/
def listAudiencesRequest : RequestOptions :=
  { method := "GET", path := "/lists",
    params := [("count", "100"), ("fields", "lists.id,lists.name,lists.stats")] }

/-- Summary row of mailchimp_list_audiences in api/mcp.ts. -/
def audienceSummary (l : MailchimpList) : JsObject :=
  [ ("id", some (jstr l.id)),
    ("name", some (jstr l.name)),
    ("subscribers", some (jnum l.stats.member_count)),
    ("open_rate", some (jstr (toFixed1 (l.stats.open_rate * 100) ++ "%"))),
    ("click_rate", some (jstr (toFixed1 (l.stats.click_rate * 100) ++ "%"))) ]

/-- Request of mailchimp_list_campaigns in api/mcp.ts. -/
def listCampaignsRequest (status : Option String) (count : ℤ) : RequestOptions :=
  { method := "GET", path := "/campaigns",
    params := [("count", toString count), ("sort_field", "create_time"),
               ("sort_dir", "DESC")]
      ++ (match status with
          | some s => if s = "" then [] else [("status", s)]
          | none => []) }

/-- Summary row of mailchimp_list_campaigns in api/mcp.ts. -/
def campaignSummary (c : MailchimpCampaign) : JsObject :=
  [ ("id", some (jstr c.id)),
    ("title", some (jstr (jsOrString c.settings.title "(untitled)"))),
    ("subject", some (jstr (jsOrString c.settings.subject_line "(no subject)"))),
    ("status", some (jstr c.status)),
    ("created", some (jstr c.create_time)),
    ("sent", some (jsStrOrNull c.send_time)),
    ("emails_sent", some (jsNumOrNull c.emails_sent)),
    ("opens", some (jsNumOrNull (c.report_summary.map ReportSummary.unique_opens))),
    ("clicks", some (jsNumOrNull (c.report_summary.map ReportSummary.subscriber_clicks))) ]

/-- Body of mailchimp_create_campaign in api/mcp.ts. -/
def createCampaignBody (list_id subject : String) (preview_text title : Option String)
    (from_name reply_to : String) : JValue :=
  jobj [ ("type", jstr "regular"),
         ("recipients", jobj [("list_id", jstr list_id)]),
         ("settings", jobj [ ("subject_line", jstr subject),
                             ("preview_text", jstr (jsOrString preview_text "")),
                             ("title", jstr (jsOrString title subject)),
                             ("from_name", jstr from_name),
                             ("reply_to", jstr reply_to) ]) ]

/-- Request of mailchimp_create_campaign in api/mcp.ts. -/
def createCampaignRequest (list_id subject : String) (preview_text title : Option String)
    (from_name reply_to : String) : RequestOptions :=
  { method := "POST", path := "/campaigns",
    body := some (createCampaignBody list_id subject preview_text title from_name reply_to) }

/-- Request of mailchimp_set_content in api/mcp.ts. -/
def setContentRequest (campaign_id html : String) : RequestOptions :=
  { method := "PUT", path := "/campaigns/" ++ campaign_id ++ "/content",
    body := some (jobj [("html", jstr html)]) }

/-- Request of mailchimp_send_test in api/mcp.ts. -/
def sendTestRequest (campaign_id : String) (test_emails : List String)
    (send_type : String) : RequestOptions :=
  { method := "POST", path := "/campaigns/" ++ campaign_id ++ "/actions/test",
    body := some (jobj [("test_emails", jarr (test_emails.map jstr)),
                        ("send_type", jstr send_type)]) }

/-- Request of mailchimp_send_campaign in api/mcp.ts. -/
def sendCampaignRequest (campaign_id : String) : RequestOptions :=
  { method := "POST", path := "/campaigns/" ++ campaign_id ++ "/actions/send" }

/-- Request of mailchimp_schedule_campaign in api/mcp.ts. -/
def scheduleCampaignRequest (campaign_id schedule_time : String) : RequestOptions :=
  { method := "POST", path := "/campaigns/" ++ campaign_id ++ "/actions/schedule",
    body := some (jobj [("schedule_time", jstr schedule_time)]) }

/-- Request of mailchimp_get_report in api/mcp.ts. -/
def getReportRequest (campaign_id : String) : RequestOptions :=
  { method := "GET", path := "/reports/" ++ campaign_id }

/-- Request of mailchimp_delete_campaign in api/mcp.ts. -/
def deleteCampaignRequest (campaign_id : String) : RequestOptions :=
  { method := "DELETE", path := "/campaigns/" ++ campaign_id }

/-- Summary of mailchimp_get_report in api/mcp.ts; unlike its counterpart in
src/index.ts it emits no bounces field. -/
def getReportSummary (campaign_id : String) (report : JValue) : JsObject :=
  [ ("campaign_id", some (jstr campaign_id)),
    ("subject", jget report "subject_line"),
    ("emails_sent", jget report "emails_sent"),
    ("opens", jchain report "opens" "unique_opens"),
    ("open_rate", jchain report "opens" "open_rate"),
    ("clicks", jchain report "clicks" "unique_subscriber_clicks"),
    ("click_rate", jchain report "clicks" "click_rate"),
    ("unsubscribes", jget report "unsubscribed") ]

end Api

/-- C1 counterexample: the claim asserts that the separator-free credential
abc123 resolves the base endpoint to the default region us1; the code pops
the whole credential as the region, so the base URL points at abc123. -/
theorem c1_counterexample :
    Index.DATA_CENTER "abc123" = "abc123" ∧ Index.DATA_CENTER "abc123" ≠ "us1" ∧
    Index.BASE_URL "abc123" ≠ "https://us1.api.mailchimp.com/3.0" :=
  ⟨by decide, by decide, by decide⟩

/-- C1 (amended): the regional endpoint is the substring following the last
separator; the us1 fallback applies only when that substring is empty (empty
credential, or credential ending in the separator). Credential abc123-us14
resolves to the us14 region; the separator-free credential abc123 resolves to
region abc123, not to us1; the empty credential resolves to us1. Both entry
points derive the same base URL. -/
theorem c1_data_center_amended :
    (∀ key region : String, '-' ∉ region.data → region ≠ "" →
        Index.DATA_CENTER (key ++ "-" ++ region) = region)
  ∧ Index.DATA_CENTER "abc123-us14" = "us14"
  ∧ Index.BASE_URL "abc123-us14" = "https://us14.api.mailchimp.com/3.0"
  ∧ Index.DATA_CENTER "abc123" = "abc123"
  ∧ Index.DATA_CENTER "" = "us1"
  ∧ (∀ k : String, (Api.getApiConfig k).2 = Index.BASE_URL k) := by
  refine ⟨?_, by decide, by decide, by decide, by decide, fun k => rfl⟩
  intro key region hmem hne
  unfold Index.DATA_CENTER
  have hdata : (key ++ "-" ++ region).data = key.data ++ '-' :: region.data := by
    simp [String.data_append]
  rw [hdata, splitChars_append, splitChars_of_not_mem '-' region.data hmem,
      getLastD_append_singleton]
  have hrd : region.data ≠ [] := by
    intro hh
    apply hne
    cases region with
    | mk l => simp at hh; simp [hh]
  simp only [hrd, if_neg]
  cases region with
  | mk l => rfl

/-- C1 witness: the general last-separator rule evaluated at the spec scenario. -/
theorem c1_witness :
    Index.DATA_CENTER ("abc123" ++ "-" ++ "us14") = "us14" :=
  c1_data_center_amended.1 "abc123" "us14" (by decide) (by decide)

/-- A fully-populated remote report response, used as the concrete input on
which the two get-report projections are compared. -/
def sampleReport : JValue :=
  jobj [ ("subject_line", jstr "S"),
         ("emails_sent", jnum 100),
         ("opens", jobj [("unique_opens", jnum 40), ("open_rate", jnum (2/5))]),
         ("clicks", jobj [("unique_subscriber_clicks", jnum 10), ("click_rate", jnum (1/10))]),
         ("bounces", jobj [("hard_bounces", jnum 1)]),
         ("unsubscribed", jnum 2) ]

/-- C2 counterexample: on the same raw remote response the two get-report
projections disagree: the persistent entry point emits a bounces field that
the request-scoped entry point does not, both as objects and after
serialization. -/
theorem c2_counterexample :
    Index.getCampaignReportSummary "c1" sampleReport ≠ Api.getReportSummary "c1" sampleReport
  ∧ "bounces" ∈ (stringifyFields (Index.getCampaignReportSummary "c1" sampleReport)).map Prod.fst
  ∧ "bounces" ∉ (stringifyFields (Api.getReportSummary "c1" sampleReport)).map Prod.fst := by
  refine ⟨fun h => ?_, by decide, by decide⟩
  have := congrArg List.length h
  simp [Index.getCampaignReportSummary, Api.getReportSummary] at this

/-- C2 (amended): the two entry points build identical (method, path, query,
body) requests for every corresponding operation and agree on the normalized
outputs of the two listing operations; but the get-report projections differ:
the request-scoped catalog equals the persistent one with the bounces field
removed (informational message fields of the action operations also differ). -/
theorem c2_catalogs_amended :
    Index.listAudiencesRequest = Api.listAudiencesRequest
  ∧ (∀ st c, Index.listCampaignsRequest st c = Api.listCampaignsRequest st c)
  ∧ (∀ lid subj pt t fn rt,
        Index.createCampaignRequest lid subj pt t fn rt = Api.createCampaignRequest lid subj pt t fn rt)
  ∧ (∀ cid html, Index.setContentRequest cid html = Api.setContentRequest cid html)
  ∧ (∀ cid emails ty, Index.sendTestRequest cid emails ty = Api.sendTestRequest cid emails ty)
  ∧ (∀ cid, Index.sendCampaignRequest cid = Api.sendCampaignRequest cid)
  ∧ (∀ cid ts, Index.scheduleCampaignRequest cid ts = Api.scheduleCampaignRequest cid ts)
  ∧ (∀ cid, Index.getReportRequest cid = Api.getReportRequest cid)
  ∧ (∀ cid, Index.deleteCampaignRequest cid = Api.deleteCampaignRequest cid)
  ∧ (∀ l, Index.audienceSummary l = Api.audienceSummary l)
  ∧ (∀ c, Index.campaignSummary c = Api.campaignSummary c)
  ∧ (∀ cid r, Api.getReportSummary cid r =
        (Index.getCampaignReportSummary cid r).filter (fun kv => kv.1 != "bounces")) :=
  ⟨rfl, fun _ _ => rfl, fun _ _ _ _ _ _ => rfl, fun _ _ => rfl, fun _ _ _ => rfl,
   fun _ => rfl, fun _ _ => rfl, fun _ => rfl, fun _ => rfl, fun _ => rfl, fun _ => rfl,
   fun _ _ => rfl⟩

/-- A remote report response missing the opens sub-object. -/
def sampleReportNoOpens : JValue :=
  jobj [ ("subject_line", jstr "S"),
         ("emails_sent", jnum 100),
         ("clicks", jobj [("unique_subscriber_clicks", jnum 10), ("click_rate", jnum (1/10))]),
         ("unsubscribed", jnum 2) ]

/-- C3 counterexample: on a get-report response missing the opens sub-object,
the serialized output omits the opens and open_rate keys entirely instead of
carrying them with a null marker. -/
theorem c3_counterexample :
    "opens" ∉ (stringifyFields (Index.getCampaignReportSummary "c1" sampleReportNoOpens)).map Prod.fst
  ∧ "open_rate" ∉ (stringifyFields (Index.getCampaignReportSummary "c1" sampleReportNoOpens)).map Prod.fst
  ∧ "opens" ∉ (stringifyFields (Api.getReportSummary "c1" sampleReportNoOpens)).map Prod.fst :=
  ⟨by decide, by decide, by decide⟩

/-- C3 (amended): the explicit-null convention holds for the list-campaigns
summary: its serialized output always carries all nine declared keys, and each
absent optional remote field (send time, emails sent, report summary counts)
surfaces as an explicit null; the get-report summary however drops the keys of
missing sub-objects (see the counterexample). -/
theorem c3_null_markers_amended :
    (∀ c : MailchimpCampaign,
        (stringifyFields (Index.campaignSummary c)).map Prod.fst =
          ["id", "title", "subject", "status", "created", "sent",
           "emails_sent", "opens", "clicks"])
  ∧ (∀ c : MailchimpCampaign,
        List.lookup "sent" (Index.campaignSummary { c with send_time := none }) = some (some jnull)
      ∧ List.lookup "emails_sent" (Index.campaignSummary { c with emails_sent := none }) = some (some jnull)
      ∧ List.lookup "opens" (Index.campaignSummary { c with report_summary := none }) = some (some jnull)
      ∧ List.lookup "clicks" (Index.campaignSummary { c with report_summary := none }) = some (some jnull)) :=
  ⟨fun _ => rfl, fun _ => ⟨rfl, rfl, rfl, rfl⟩⟩

/-- C4: a non-success remote status raises a failure whose message carries the
numeric status and the detail extracted from the body (detail, else title,
else a generic message), in both entry points; in particular a 404 with body
detail "Campaign not found" on get report yields a message containing exactly
that detail and the code 404. -/
theorem c4_remote_error (apiKey : String) (o : RequestOptions) (status : Nat) (data : JValue)
    (hk : apiKey ≠ "") (h204 : status ≠ 204) (hbad : ¬(200 ≤ status ∧ status ≤ 299)) :
    Index.mailchimpRequest apiKey o (fun _ => (status, data)) =
      .error ("Mailchimp API error (" ++ toString status ++ "): " ++ Index.errorDetail data)
  ∧ Api.mc apiKey o.method o.path o.body o.params (fun _ => (status, data)) =
      .error ("Mailchimp " ++ toString status ++ ": " ++ Api.errorDetail data)
  ∧ (∀ (d : String) (rest : List (String × JValue)), d ≠ "" →
        Index.errorDetail (jobj (("detail", jstr d) :: rest)) = d)
  ∧ Index.errorDetail (jobj []) = "Unknown error"
  ∧ Api.errorDetail (jobj []) = "Error"
  ∧ Index.mailchimpRequest "key-us1" (Index.getReportRequest "c1")
      (fun _ => (404, jobj [("detail", jstr "Campaign not found")])) =
      .error "Mailchimp API error (404): Campaign not found"
  ∧ (∃ a b, "Mailchimp API error (404): Campaign not found" = a ++ "Campaign not found" ++ b)
  ∧ (∃ a b, "Mailchimp API error (404): Campaign not found" = a ++ "404" ++ b) := by
  refine ⟨?_, ?_, ?_, rfl, rfl, rfl,
    ⟨"Mailchimp API error (404): ", "", by decide⟩,
    ⟨"Mailchimp API error (", "): Campaign not found", by decide⟩⟩
  · simp [Index.mailchimpRequest, hk, h204, hbad]
  · simp [Api.mc, Api.getApiConfig, hk, h204, hbad]
  · intro d rest hd
    simp [Index.errorDetail, jget, lookupField, jsOr, jsTruthy, jsDisplay, hd]

/-- C4 witness: the concrete 404 get-report scenario. -/
theorem c4_witness :
    Index.mailchimpRequest "key-us1" (Index.getReportRequest "c1")
      (fun _ => (404, jobj [("detail", jstr "Campaign not found")])) =
      .error "Mailchimp API error (404): Campaign not found" :=
  (c4_remote_error "key-us1" (Index.getReportRequest "c1") 404
      (jobj [("detail", jstr "Campaign not found")])
      (by decide) (by decide) (by decide)).2.2.2.2.2.1

/-- C5: a 204 no-content remote response is a success carrying the empty
object, for every operation and in both entry points, and never an error. -/
theorem c5_no_content (apiKey : String) (o : RequestOptions) (data : JValue)
    (hk : apiKey ≠ "") :
    Index.mailchimpRequest apiKey o (fun _ => (204, data)) = .ok (jobj [])
  ∧ Api.mc apiKey o.method o.path o.body o.params (fun _ => (204, data)) = .ok (jobj []) := by
  constructor
  · simp [Index.mailchimpRequest, hk]
  · simp [Api.mc, Api.getApiConfig, hk]

/-- C5 witness: the send-campaign action on a 204 response. -/
theorem c5_witness :
    Index.mailchimpRequest "key-us1" (Index.sendCampaignRequest "c1")
      (fun _ => (204, jobj [])) = .ok (jobj []) :=
  (c5_no_content "key-us1" (Index.sendCampaignRequest "c1") (jobj []) (by decide)).1

/-- C6: with no credential configured, both clients fail for every operation
and independently of the network (the response function is never consulted),
and both configuration errors state the expected credential format. -/
theorem c6_missing_credential (o : RequestOptions)
    (respond respond' : HttpRequest → Nat × JValue) :
    Index.mailchimpRequest "" o respond =
      .error "MAILCHIMP_API_KEY environment variable is not set. Format: <key>-<dc> (e.g., abc123-us14)"
  ∧ Api.mc "" o.method o.path o.body o.params respond =
      .error "MAILCHIMP_API_KEY not set. Format: <key>-<dc>"
  ∧ Index.mailchimpRequest "" o respond = Index.mailchimpRequest "" o respond'
  ∧ Api.mc "" o.method o.path o.body o.params respond = Api.mc "" o.method o.path o.body o.params respond'
  ∧ (∃ a b, "MAILCHIMP_API_KEY environment variable is not set. Format: <key>-<dc> (e.g., abc123-us14)"
        = a ++ "<key>-<dc>" ++ b)
  ∧ (∃ a b, "MAILCHIMP_API_KEY not set. Format: <key>-<dc>" = a ++ "<key>-<dc>" ++ b) :=
  ⟨rfl, rfl, rfl, rfl,
   ⟨"MAILCHIMP_API_KEY environment variable is not set. Format: ", " (e.g., abc123-us14)", by decide⟩,
   ⟨"MAILCHIMP_API_KEY not set. Format: ", "", by decide⟩⟩

/-- C7: every create-campaign body fixes the type to regular; with the title
omitted the body title equals the subject, and with the preview text omitted
the body carries the empty string (present, not absent), in both entry points. -/
theorem c7_create_campaign (list_id subject from_name reply_to : String)
    (preview_text title : Option String) :
    jget (Index.createCampaignBody list_id subject preview_text title from_name reply_to) "type"
      = some (jstr "regular")
  ∧ jchain (Index.createCampaignBody list_id subject none none from_name reply_to) "settings" "title"
      = some (jstr subject)
  ∧ jchain (Index.createCampaignBody list_id subject none none from_name reply_to) "settings" "preview_text"
      = some (jstr "")
  ∧ jget (Api.createCampaignBody list_id subject preview_text title from_name reply_to) "type"
      = some (jstr "regular")
  ∧ jchain (Api.createCampaignBody list_id subject none none from_name reply_to) "settings" "title"
      = some (jstr subject)
  ∧ jchain (Api.createCampaignBody list_id subject none none from_name reply_to) "settings" "preview_text"
      = some (jstr "") :=
  ⟨rfl, rfl, rfl, rfl, rfl, rfl⟩

/-- C8: audience rates are formatted as fixed-point percentage strings with
one decimal digit; the spec scenario stats (250 members, open rate 0.423,
click rate 0.081) normalize to subscribers 250, "42.3%", "8.1%" in both entry
points, and for every nonnegative rate the formatter produces an integral
part, a point, and a single digit. -/
theorem c8_rate_formatting :
    Index.audienceSummary ⟨"a1", "Newsletter", ⟨250, 0, 423/1000, 81/1000⟩⟩ =
      [("id", some (jstr "a1")), ("name", some (jstr "Newsletter")),
       ("subscribers", some (jnum 250)), ("open_rate", some (jstr "42.3%")),
       ("click_rate", some (jstr "8.1%"))]
  ∧ Api.audienceSummary ⟨"a1", "Newsletter", ⟨250, 0, 423/1000, 81/1000⟩⟩ =
      [("id", some (jstr "a1")), ("name", some (jstr "Newsletter")),
       ("subscribers", some (jnum 250)), ("open_rate", some (jstr "42.3%")),
       ("click_rate", some (jstr "8.1%"))]
  ∧ (∀ l : MailchimpList, (Index.audienceSummary l).map Prod.fst =
        ["id", "name", "subscribers", "open_rate", "click_rate"])
  ∧ (∀ x : ℚ, 0 ≤ x → ∃ n : ℤ, 0 ≤ n ∧ 0 ≤ n % 10 ∧ n % 10 < 10 ∧
        toFixed1 x = toString (n / 10) ++ "." ++ toString (n % 10)) := by
  have hf1 : ((423 : ℚ) / 1000 * 100 * 10 + 1 / 2).floor = 423 := by
    rw [Rat.floor_def', ← Rat.floor_def]; norm_num
  have hf2 : ((81 : ℚ) / 1000 * 100 * 10 + 1 / 2).floor = 81 := by
    rw [Rat.floor_def', ← Rat.floor_def]; norm_num
  have h1 : toFixed1 (423/1000 * 100) ++ "%" = "42.3%" := by
    simp only [toFixed1]; rw [hf1]; decide
  have h2 : toFixed1 (81/1000 * 100) ++ "%" = "8.1%" := by
    simp only [toFixed1]; rw [hf2]; decide
  refine ⟨?_, ?_, fun _ => rfl, ?_⟩
  · simp [Index.audienceSummary, h1, h2]
  · simp [Api.audienceSummary, h1, h2]
  intro x hx
  refine ⟨(x * 10 + 1 / 2).floor, ?_, ?_, ?_, rfl⟩
  · exact Rat.le_floor.mpr (by push_cast; linarith)
  · exact Int.emod_nonneg _ (by norm_num)
  · exact Int.emod_lt_of_pos _ (by norm_num)

/-- C8 witness: the single-digit decomposition at the spec scenario rate. -/
theorem c8_witness :
    ∃ n : ℤ, 0 ≤ n ∧ 0 ≤ n % 10 ∧ n % 10 < 10 ∧
      toFixed1 (423/1000 * 100) = toString (n / 10) ++ "." ++ toString (n % 10) :=
  c8_rate_formatting.2.2.2 (423/1000 * 100) (by norm_num)

/-- C9: the bounded numeric contracts reject out-of-range values before any
request is built and before the network is consulted: a campaign list count
outside 1..100 and a test address list outside 1..5 entries both fail during
validation, for every response function, and an omitted count defaults to 20. -/
theorem c9_bound_validation (apiKey : String) (q : ℚ) (cid : String)
    (emails : List String) (ty : Option String) (respond : HttpRequest → Nat × JValue)
    (hq : q < 1 ∨ 100 < q) (he : emails.length < 1 ∨ 5 < emails.length) :
    (∃ e, Index.listCampaignsInvoke apiKey none (some q) respond = .error e)
  ∧ (∀ respond', Index.listCampaignsInvoke apiKey none (some q) respond
        = Index.listCampaignsInvoke apiKey none (some q) respond')
  ∧ (∃ e, Index.sendTestInvoke apiKey cid emails ty respond = .error e)
  ∧ (∀ respond', Index.sendTestInvoke apiKey cid emails ty respond
        = Index.sendTestInvoke apiKey cid emails ty respond')
  ∧ Index.validateCount none = .ok 20 := by
  have hvc : ∃ e, Index.validateCount (some q) = Except.error e := by
    by_cases hd : q.den = 1
    · rcases hq with h | h
      · exact ⟨"count: must be at least 1", by simp [Index.validateCount, hd, h]⟩
      · have h1 : ¬ q < 1 := by linarith
        exact ⟨"count: must be at most 100", by simp [Index.validateCount, hd, h1, h]⟩
    · exact ⟨"count: expected an integer", by simp [Index.validateCount, hd]⟩
  have hve : ∃ e, Index.validateTestEmails emails = Except.error e := by
    rcases he with h | h
    · exact ⟨"test_emails: at least 1 address required", by simp [Index.validateTestEmails, h]⟩
    · have h1 : ¬ emails.length < 1 := by omega
      exact ⟨"test_emails: at most 5 addresses allowed", by simp [Index.validateTestEmails, h1, h]⟩
  obtain ⟨e1, he1⟩ := hvc
  obtain ⟨e2, he2⟩ := hve
  refine ⟨⟨e1, ?_⟩, fun respond' => ?_, ⟨e2, ?_⟩, fun respond' => ?_, rfl⟩ <;>
    simp [Index.listCampaignsInvoke, Index.sendTestInvoke, Index.validateStatus, he1, he2]

/-- C9 witness: count 0 and a six-address test list are both rejected. -/
theorem c9_witness :
    (∃ e, Index.listCampaignsInvoke "key-us1" none (some 0)
        (fun _ => (200, jobj [])) = .error e)
  ∧ (∃ e, Index.sendTestInvoke "key-us1" "c1"
        ["a@b.co", "b@b.co", "c@b.co", "d@b.co", "e@b.co", "f@b.co"] none
        (fun _ => (200, jobj [])) = .error e) := by
  have h := c9_bound_validation "key-us1" 0 "c1"
    ["a@b.co", "b@b.co", "c@b.co", "d@b.co", "e@b.co", "f@b.co"] none
    (fun _ => (200, jobj [])) (Or.inl (by norm_num)) (Or.inr (by decide))
  exact ⟨h.1, h.2.2.1⟩

/-- C10: in the list-campaigns summary a present zero in emails sent, unique
opens or subscriber clicks is rendered as null, so a campaign carrying an
explicit zero is indistinguishable from one where the field is absent. -/
theorem c10_zero_is_null (c : MailchimpCampaign) (rs : ReportSummary) :
    Index.campaignSummary { c with emails_sent := some 0 }
      = Index.campaignSummary { c with emails_sent := none }
  ∧ List.lookup "emails_sent" (Index.campaignSummary { c with emails_sent := some 0 })
      = some (some jnull)
  ∧ List.lookup "opens" (Index.campaignSummary
        { c with report_summary := some { rs with unique_opens := 0 } })
      = some (some jnull)
  ∧ List.lookup "clicks" (Index.campaignSummary
        { c with report_summary := some { rs with subscriber_clicks := 0 } })
      = some (some jnull)
  ∧ Index.campaignSummary
        { c with report_summary := some { rs with unique_opens := 0, subscriber_clicks := 0 } }
      = Index.campaignSummary { c with report_summary := none } :=
  ⟨rfl, rfl, rfl, rfl, rfl⟩
